import Mathlib

/-
  Verification of the fakturenn job execution engine against its
  natural-language specification.

  Shallow embedding of:
  - app/core/path_template.py   (template validation and rendering)
  - app/core/date_utils.py      (date-label parsing)
  - app/export/base.py          (ExportResult, validation, handler factory)
  - app/export/local_storage.py (filesystem export handler)
  - app/export/paheko_handler.py (accounting export handler, duplicate guard)
  - app/db/models.py            (check-constraint enumerations, row shapes)
  - app/api/routers/jobs.py     (get_job / cancel_job endpoints)
  - app/workers/job_worker.py   (unified job workflow)
  - app/workers/job_coordinator.py (coordinator job-started handling)

  Python dictionaries are modelled as association lists with first-match
  lookup (insertion of a key shadows earlier bindings, matching dict
  override semantics).  Floats only ever carry euro amounts here and are
  modelled as integer cents.  Exceptions are modelled with Except; a
  Python `except` block corresponds to matching on `.error`.  Wall-clock
  time is a constant `now : Nat` parameter of each scenario, so computed
  durations are 0.
-/

namespace Fakturenn

/-- A Python value as it occurs in the dictionaries this code passes around:
a string, a number (euro amount, in cents), a boolean, or None. -/
inductive Val where
  | vs (s : String)
  | vnum (cents : Int)
  | vb (b : Bool)
  | vnull
deriving DecidableEq, Repr

/-- A Python dict: association list, first binding wins on lookup. -/
abbrev Dict := List (String × Val)

def dictGet (d : Dict) (k : String) : Option Val :=
  (d.find? (fun kv => kv.1 == k)).map (fun kv => kv.2)

def dictHas (d : Dict) (k : String) : Bool :=
  (dictGet d k).isSome

/-- `d.get(k, default)` -/
def dictGetD (d : Dict) (k : String) (dflt : Val) : Val :=
  (dictGet d k).getD dflt

/-- Insert (shadowing) a binding, as in `{**d, k: v}`. -/
def dictSet (d : Dict) (k : String) (v : Val) : Dict :=
  (k, v) :: d

/-- `d.setdefault(k, v)` -/
def dictSetdefault (d : Dict) (k : String) (v : Val) : Dict :=
  if dictHas d k then d else (k, v) :: d

/-- String value of a config entry, with `.get(key, default)` semantics;
a present-but-non-string value is a dynamic type error. -/
def dictGetStrD (d : Dict) (k : String) (dflt : String) : Except String String :=
  match dictGet d k with
  | none => .ok dflt
  | some (.vs s) => .ok s
  | some _ => .error ("TypeError: expected str for " ++ k)

/-- `str(value)` as applied to template substitutions.  For a float,
Python prints at least one decimal digit and drops trailing zeros
(str(42.0) = "42.0", str(19.99) = "19.99"). -/
def valToStr : Val → String
  | .vs s => s
  | .vnum c =>
      let q := c / 100
      let r := (c % 100).toNat
      if r = 0 then toString q ++ ".0"
      else if r % 10 = 0 then toString q ++ "." ++ toString (r / 10)
      else toString q ++ "." ++ (if r < 10 then "0" else "") ++ toString r
  | .vb b => if b then "True" else "False"
  | .vnull => "None"

/-- Two-decimal amount formatting, `f"\x7bamount:.2f\x7d"`. -/
def formatAmount2 (c : Int) : String :=
  let q := c / 100
  let r := (c % 100).toNat
  toString q ++ "." ++ (if r < 10 then "0" else "") ++ toString r

def isWordChar (c : Char) : Bool :=
  c.isAlphanum || c == '_'

def strAllDigits (s : String) : Bool :=
  s ≠ "" && s.toList.all Char.isDigit

def digitsToNat (cs : List Char) : Nat :=
  cs.foldl (fun acc c => acc * 10 + (c.toNat - '0'.toNat)) 0

/-- `int(s)` restricted to unsigned digit strings (the only shapes this
code feeds it); non-digit input raises ValueError, modelled as none. -/
def strToNat (s : String) : Option Nat :=
  if strAllDigits s then some (digitsToNat s.toList) else none

/- List-based equivalents of the string slicing / splitting operations the
Python code uses (chosen over the iterator-based core functions so that
every definition evaluates by kernel reduction). -/

/-- `s[:n]` -/
def strTake (s : String) (n : Nat) : String := String.mk (s.toList.take n)

/-- `s[n:]` -/
def strDrop (s : String) (n : Nat) : String := String.mk (s.toList.drop n)

def isSpaceChar (c : Char) : Bool :=
  c == ' ' || c == '\t' || c == '\n' || c == '\r' || c == '\x0b' || c == '\x0c'

/-- `s.strip()` -/
def strTrim (s : String) : String :=
  String.mk (((s.toList.dropWhile isSpaceChar).reverse.dropWhile isSpaceChar).reverse)

/-- `s.lower()` restricted to ASCII case mapping (agrees with Python on
every string whose accented characters are already lowercase). -/
def lowerStr (s : String) : String := String.mk (s.toList.map Char.toLower)

def splitOnChar (sep : Char) : List Char → List (List Char)
  | [] => [[]]
  | c :: rest =>
      match splitOnChar sep rest with
      | [] => [[]]
      | h :: t => if c == sep then [] :: h :: t else (c :: h) :: t

/-- `s.split(sep)` for a one-character separator. -/
def strSplitOnChar (s : String) (sep : Char) : List String :=
  (splitOnChar sep s.toList).map String.mk

end Fakturenn

namespace Fakturenn

/- ===== app/core/path_template.py ===== -/

def TEMPLATE_VARIABLES : List String :=
  ["year", "month", "month_name", "quarter", "date", "invoice_id", "source", "amount"]

def FRENCH_MONTHS : List (String × String) :=
  [("01", "Janvier"), ("02", "Février"), ("03", "Mars"), ("04", "Avril"),
   ("05", "Mai"), ("06", "Juin"), ("07", "Juillet"), ("08", "Août"),
   ("09", "Septembre"), ("10", "Octobre"), ("11", "Novembre"), ("12", "Décembre")]

def frenchMonthsGet (k : String) (dflt : String) : String :=
  match FRENCH_MONTHS.find? (fun p => p.1 == k) with
  | some p => p.2
  | none => dflt

/-- `get_quarter` over the already-parsed month number. -/
def get_quarter (m : Nat) : String :=
  if m ≤ 3 then "Q1" else if m ≤ 6 then "Q2" else if m ≤ 9 then "Q3" else "Q4"

/-- The variable names matched by `re.findall(r"\x5c\x7b(\x5cw+)\x5c\x7d", template)`:
an opening brace, a nonempty run of word characters, a closing brace;
scanning left to right, non-overlapping. -/
def extractVarsAux : Nat → List Char → List String
  | 0, _ => []
  | _ + 1, [] => []
  | fuel + 1, '{' :: rest =>
      match rest.drop (rest.takeWhile isWordChar).length with
      | '}' :: tail =>
          if (rest.takeWhile isWordChar).isEmpty then extractVarsAux fuel rest
          else String.mk (rest.takeWhile isWordChar) :: extractVarsAux fuel tail
      | _ => extractVarsAux fuel rest
  | fuel + 1, _ :: rest => extractVarsAux fuel rest

/- The fuel argument only serves structural recursion: every step consumes
at least one character, so an initial fuel equal to the length is never
exhausted. -/
def extractVars (template : String) : List String :=
  extractVarsAux template.toList.length template.toList

/-- The extra names allowed by the validator beyond TEMPLATE_VARIABLES. -/
def EXTRA_VALID_VARS : List String :=
  ["date", "amount_eur", "source", "filename"]

/-- `validate_path_template`: returns (is_valid, error_message). -/
def validate_path_template (template : String) : Bool × String :=
  if template = "" then (false, "Template cannot be empty")
  else
    let vars := extractVars template
    match vars.find? (fun v =>
        !(TEMPLATE_VARIABLES.contains v || EXTRA_VALID_VARS.contains v)) with
    | some v => (false, "Unknown variable: " ++ v)
    | none =>
        if vars = [] then (false, "Template must contain at least one variable")
        else (true, "")

/-- One `str.format` error kind: a placeholder key missing from the
context (KeyError) or a malformed template (ValueError). -/
inductive FormatErr where
  | missingKey (k : String)
  | malformed (msg : String)
deriving DecidableEq, Repr

/-- `template.format(**context)` for the simple placeholder shapes this
code uses: `\x7bname\x7d` substitution, `\x7b\x7b`/`\x7d\x7d` escapes; a missing key is a
KeyError, a dangling brace a ValueError. -/
def pyFormatAux (ctx : Dict) : Nat → List Char → Except FormatErr String
  | 0, _ => .ok ""
  | _ + 1, [] => .ok ""
  | fuel + 1, '{' :: '{' :: rest => do
      let s ← pyFormatAux ctx fuel rest
      .ok ("\x7b" ++ s)
  | fuel + 1, '}' :: '}' :: rest => do
      let s ← pyFormatAux ctx fuel rest
      .ok ("\x7d" ++ s)
  | _ + 1, '}' :: _ => .error (.malformed "Single closing brace encountered in format string")
  | fuel + 1, '{' :: rest =>
      match rest.drop (rest.takeWhile (fun c => c ≠ '}')).length with
      | '}' :: tail =>
          match dictGet ctx (String.mk (rest.takeWhile (fun c => c ≠ '}'))) with
          | some v => do
              let s ← pyFormatAux ctx fuel tail
              .ok (valToStr v ++ s)
          | none => .error (.missingKey (String.mk (rest.takeWhile (fun c => c ≠ '}'))))
      | _ => .error (.malformed "expected closing brace before end of string")
  | fuel + 1, c :: rest => do
      let s ← pyFormatAux ctx fuel rest
      .ok (String.mk [c] ++ s)

/- Fuel only serves structural recursion; each step consumes at least one
character, so fuel equal to the length is never exhausted. -/
def pyFormat (template : String) (ctx : Dict) : Except FormatErr String :=
  pyFormatAux ctx template.toList.length template.toList

/-- `render_path_template`: derive year / month / month_name / quarter from
an ISO-looking `date` value, a two-decimal `amount` from `amount_eur`, then
format.  A KeyError from format becomes the "Missing template variable"
ValueError; a non-numeric month makes `int()` raise inside `get_quarter`. -/
def render_path_template (template : String) (context : Dict) : Except String String :=
  if template = "" then .error "Template cannot be empty"
  else do
    let ctx1 ←
      match dictGet context "date" with
      | some (.vs ds) =>
          if ds.length ≥ 7 then
            let year := strTake ds 4
            let month := strTake (strDrop ds 5) 2
            match strToNat month with
            | none => .error ("invalid literal for int() with base 10: " ++ month)
            | some m =>
                pure (dictSetdefault (dictSetdefault (dictSetdefault (dictSetdefault
                  context "year" (.vs year)) "month" (.vs month))
                  "month_name" (.vs (frenchMonthsGet month month)))
                  "quarter" (.vs (get_quarter m)))
          else pure context
      | _ => pure context
    let ctx2 :=
      match dictGet ctx1 "amount_eur" with
      | some (.vnum c) => dictSetdefault ctx1 "amount" (.vs (formatAmount2 c))
      | _ => ctx1
    match pyFormat template ctx2 with
    | .ok s => .ok s
    | .error (.missingKey k) =>
        .error ("Missing template variable " ++ k ++ ". Available variables: " ++
          String.intercalate ", " TEMPLATE_VARIABLES)
    | .error (.malformed msg) => .error msg

/- ===== app/export/base.py ===== -/

/-- `ExportResult` dataclass. -/
structure ExportResult where
  status : String
  external_reference : Option String := none
  error_message : Option String := none
deriving DecidableEq, Repr

/-- `ExportHandler._validate_invoice_data`. -/
def validateInvoiceData (invoice_data : Dict) : Bool :=
  ["file_path", "invoice_id", "date", "amount_eur"].all (dictHas invoice_data)

/-- `ExportHandler._validate_context`. -/
def validateContext (context : Dict) : Bool :=
  ["invoice_id", "date", "amount_eur"].all (dictHas context)

/-- The three handler classes `get_export_handler` can instantiate. -/
inductive HandlerKind where
  | paheko
  | localStorage
  | googleDrive
deriving DecidableEq, Repr

/-- `get_export_handler`: dispatch on the export type string; an unknown
type raises ValueError (modelled as `.error`). -/
def get_export_handler (export_type : String) : Except String HandlerKind :=
  if export_type = "Paheko" then .ok .paheko
  else if export_type = "LocalStorage" then .ok .localStorage
  else if export_type = "GoogleDrive" then .ok .googleDrive
  else .error ("Unknown export type: " ++ export_type)

/- ===== app/export/local_storage.py ===== -/

/-- The filesystem as the LocalStorage handler observes and mutates it:
a working directory, the set of directories created, and files (path to
content). -/
structure FS where
  cwd : String
  dirs : List String
  files : List (String × String)
deriving DecidableEq, Repr

def fsFileContent (fs : FS) (path : String) : Option String :=
  (fs.files.find? (fun pc => pc.1 == path)).map (fun pc => pc.2)

def fsExists (fs : FS) (path : String) : Bool :=
  (fsFileContent fs path).isSome

/-- `Path(p).name`: the final path component. -/
def pathName (p : String) : String :=
  (strSplitOnChar p '/').getLastD ""

/-- `Path(p).parent` as a string. -/
def pathParent (p : String) : String :=
  let comps := strSplitOnChar p '/'
  String.intercalate "/" (comps.take (comps.length - 1))

def pathIsAbsolute (p : String) : Bool :=
  match p.toList with
  | '/' :: _ => true
  | _ => false

/-- `LocalStorageExportHandler.export`.  Returns the result and the
filesystem after the call; every early `failed` return happens with the
filesystem untouched except that directory creation precedes the
source-file existence check. -/
def localStorageExport (config : Dict) (invoice_data context : Dict) (fs : FS) :
    ExportResult × FS :=
  if ¬validateInvoiceData invoice_data then
    ({ status := "failed", error_message := some "Missing required invoice data fields" }, fs)
  else if ¬validateContext context then
    ({ status := "failed", error_message := some "Missing required context fields" }, fs)
  else
    match dictGetStrD config "path_template" "{year}/{month}/{source}_{invoice_id}.pdf" with
    | .error e => ({ status := "failed", error_message := some e }, fs)
    | .ok path_template =>
      match validate_path_template path_template with
      | (false, err) => ({ status := "failed", error_message := some err }, fs)
      | (true, _) =>
        match dictGetStrD config "base_path" "factures" with
        | .error e => ({ status := "failed", error_message := some e }, fs)
        | .ok bp =>
          let base_path := if pathIsAbsolute bp then bp else fs.cwd ++ "/" ++ bp
          match dictGet invoice_data "file_path" with
          | some (.vs fp) =>
            let context_for_template :=
              dictSet (dictSet context "source" (dictGetD invoice_data "source" (.vs "unknown")))
                "filename" (.vs (pathName fp))
            match render_path_template path_template context_for_template with
            | .error e => ({ status := "failed", error_message := some e }, fs)
            | .ok relative_path =>
              let destination_path := base_path ++ "/" ++ relative_path
              let createDirs :=
                match dictGet config "create_directories" with
                | some (.vb b) => b
                | some .vnull => false
                | some _ => true
                | none => true
              let fs1 :=
                if createDirs then { fs with dirs := pathParent destination_path :: fs.dirs }
                else fs
              match fsFileContent fs1 fp with
              | none =>
                  ({ status := "failed",
                     error_message := some ("Source file not found: " ++ fp) }, fs1)
              | some content =>
                  ({ status := "success", external_reference := some destination_path },
                   { fs1 with files := (destination_path, content) :: fs1.files })
          | _ =>
            -- unreachable after `_validate_invoice_data`, which requires the key;
            -- a non-string value would make `Path(...)` raise, caught as failed
            ({ status := "failed", error_message := some "TypeError: file_path" }, fs)

/- ===== app/export/paheko_handler.py ===== -/

/-- A simple calendar date, compared lexicographically via an integer key. -/
structure PDate where
  year : Nat
  month : Nat
  day : Nat
deriving DecidableEq, Repr

def PDate.key (d : PDate) : Nat :=
  d.year * 10000 + d.month * 100 + d.day

def isLeapYear (y : Nat) : Bool :=
  y % 4 = 0 && (y % 100 ≠ 0 || y % 400 = 0)

def daysInMonth (y m : Nat) : Nat :=
  if m = 2 then (if isLeapYear y then 29 else 28)
  else if m = 4 || m = 6 || m = 9 || m = 11 then 30
  else 31

/-- Validity of a proleptic-Gregorian date as `datetime.date` enforces it
(year between 1 and 9999). -/
def isValidDate (y m d : Nat) : Bool :=
  1 ≤ y && y ≤ 9999 && 1 ≤ m && m ≤ 12 && 1 ≤ d && d ≤ daysInMonth y m

/-- `datetime.strptime(s, "%Y-%m-%d").date()`: the whole string must be
exactly four digits, a dash, two digits, a dash, two digits, and denote a
valid date; otherwise ValueError (none). -/
def strptimeISO (s : String) : Option PDate :=
  match s.toList with
  | [y1, y2, y3, y4, '-', m1, m2, '-', d1, d2] =>
      if [y1, y2, y3, y4, m1, m2, d1, d2].all Char.isDigit then
        let y := digitsToNat [y1, y2, y3, y4]
        let m := digitsToNat [m1, m2]
        let d := digitsToNat [d1, d2]
        if isValidDate y m d then some ⟨y, m, d⟩ else none
      else none
  | _ => none

/-- One row of a Paheko accounting year listing. -/
structure AccountingYear where
  id : Int
  start_date : String
  end_date : String
deriving DecidableEq, Repr

/-- One entry of an account journal, as `_check_duplicate` reads it. -/
structure JournalEntry where
  date : String
  label : String
deriving DecidableEq, Repr

/-- The arguments of one `PahekoClient.create_transaction` call: the
external write the handler performs. -/
structure CreateArgs where
  id_year : Int
  label : String
  date : Option String
  transaction_type : String
  amountCents : Option Int
  debit : String
  credit : String
deriving DecidableEq, Repr

/-- The external Paheko sink as the handler observes it: whether client
initialization succeeds, the accounting years, the journal query (which
may raise: `.error`), and the outcome of a create call (`none` models a
raise or a falsy response). -/
structure PahekoSink where
  hasClient : Bool
  years : List AccountingYear
  journal : Int → String → Except String (List JournalEntry)
  create : CreateArgs → Option Int

/-- `PahekoExportHandler._get_accounting_year`: parse the invoice date and
find the year whose range contains it; any failure yields none. -/
def getAccountingYear (sink : PahekoSink) (dateStr : Option String) : Option Int :=
  if sink.years.isEmpty then none
  else
    match dateStr.bind strptimeISO with
    | none => none
    | some d =>
        (sink.years.find? (fun y =>
          match strptimeISO y.start_date, strptimeISO y.end_date with
          | some s, some e => s.key ≤ d.key && d.key ≤ e.key
          | _, _ => false)).map (fun y => y.id)

/-- `PahekoExportHandler._check_duplicate`: compare each journal entry on
the natural key (date, label); a journal-query failure is swallowed by the
`except` block and reported as "no duplicate" (False). -/
def checkDuplicate (config : Dict) (sink : PahekoSink) (id_year : Int)
    (label : String) (dateStr : Option String) : Bool :=
  let debit_codes := strSplitOnChar (match dictGet config "debit" with
    | some (.vs s) => s
    | _ => "") ','
  let account_code := strTrim (debit_codes.headD "")
  if account_code = "" then false
  else
    match sink.journal id_year account_code with
    | .error _ => false
    | .ok journal =>
        if journal.isEmpty then false
        else journal.any (fun e => some (strTake e.date 10) == dateStr && e.label == label)

/-- `PahekoExportHandler._create_transaction`: take the first debit and
credit codes and call the client; returns the transaction id, and the
list of create calls made. -/
def createTransaction (config : Dict) (sink : PahekoSink) (id_year : Int)
    (label : String) (dateStr : Option String) (amount : Option Int) :
    Option Int × List CreateArgs :=
  let debit := strTrim ((strSplitOnChar (match dictGet config "debit" with
    | some (.vs s) => s | _ => "") ',').headD "")
  let credit := strTrim ((strSplitOnChar (match dictGet config "credit" with
    | some (.vs s) => s | _ => "") ',').headD "")
  if debit = "" || credit = "" then (none, [])
  else
    let ttype := match dictGet config "paheko_type" with
      | some (.vs s) => s | _ => "EXPENSE"
    let args : CreateArgs :=
      { id_year := id_year, label := label, date := dateStr,
        transaction_type := ttype, amountCents := amount,
        debit := debit, credit := credit }
    (sink.create args, [args])

/-- `PahekoExportHandler.export`.  Returns the result together with the
list of external create calls performed. -/
def pahekoExport (config : Dict) (invoice_data context : Dict) (sink : PahekoSink) :
    ExportResult × List CreateArgs :=
  if ¬validateInvoiceData invoice_data then
    ({ status := "failed", error_message := some "Missing required invoice data fields" }, [])
  else if ¬validateContext context then
    ({ status := "failed", error_message := some "Missing required context fields" }, [])
  else if ¬sink.hasClient then
    ({ status := "failed", error_message := some "Failed to initialize Paheko client" }, [])
  else
    let label_template := match dictGet config "label_template" with
      | some (.vs s) => s
      | _ => "Facture {invoice_id}"
    match pyFormat label_template context with
    | .error fe =>
        -- KeyError / ValueError from `.format` is caught by the outer
        -- `except` and reported as a failed result
        let msg := match fe with
          | .missingKey k => k
          | .malformed m => m
        ({ status := "failed", error_message := some msg }, [])
    | .ok label =>
      let dateStr : Option String := match dictGet context "date" with
        | some (.vs s) => some s
        | _ => none
      match getAccountingYear sink dateStr with
      | none =>
          ({ status := "failed", error_message := some "No matching accounting year found" }, [])
      | some id_year =>
          if checkDuplicate config sink id_year label dateStr then
            ({ status := "duplicate_skipped", external_reference := none,
               error_message := some "Duplicate entry already exists" }, [])
          else
            let amount := match dictGet invoice_data "amount_eur" with
              | some (.vnum c) => some c
              | _ => none
            match createTransaction config sink id_year label dateStr amount with
            | (some tid, calls) =>
                ({ status := "success", external_reference := some (toString tid) }, calls)
            | (none, calls) =>
                ({ status := "failed",
                   error_message := some "Failed to create transaction in Paheko" }, calls)

/- ===== app/db/models.py ===== -/

/-- The check-constraint enumeration on `Job.status`
(`models.py`, `Job.__table_args__`). -/
def jobStatusEnum : List String := ["pending", "running", "completed", "failed"]

/-- The check-constraint enumeration on `ExportHistory.status`. -/
def exportHistoryStatusEnum : List String := ["success", "failed", "duplicate_skipped"]

/-- Job statistics: the workers build a plain dict of counters. -/
abbrev Stats := List (String × Int)

def statsLookup (st : Stats) (k : String) : Option Int :=
  (st.find? (fun p => p.1 == k)).map (fun p => p.2)

def statsIncr (st : Stats) (k : String) (n : Int) : Stats :=
  st.map (fun p => if p.1 == k then (p.1, p.2 + n) else p)

structure AutomationR where
  id : Int
  userId : Int
deriving DecidableEq, Repr

structure SourceR where
  id : Int
  automationId : Int
  name : String
  ty : String
  active : Bool
deriving DecidableEq, Repr

structure ExportR where
  id : Int
  automationId : Int
  ty : String
  configuration : Dict
  active : Bool
deriving DecidableEq, Repr

structure MappingR where
  sourceId : Int
  exportId : Int
deriving DecidableEq, Repr

structure JobR where
  id : Int
  automationId : Int
  status : String
  errorMessage : Option String := none
  stats : Option Stats := none
  startedAt : Option Nat := none
  completedAt : Option Nat := none
deriving DecidableEq, Repr

structure DB where
  automations : List AutomationR
  sources : List SourceR
  exports : List ExportR
  mappings : List MappingR
  jobs : List JobR
deriving DecidableEq, Repr

/-- `select(Automation).where(id == automation_id, user_id == user_id)` —
the tenancy-checked automation lookup both workers use. -/
def getAutomation (db : DB) (automationId userId : Int) : Option AutomationR :=
  db.automations.find? (fun a => a.id == automationId && a.userId == userId)

def getActiveSources (db : DB) (automationId : Int) : List SourceR :=
  db.sources.filter (fun s => s.automationId == automationId && s.active)

def getActiveExports (db : DB) (automationId : Int) : List ExportR :=
  db.exports.filter (fun e => e.automationId == automationId && e.active)

def updateJob (db : DB) (jobId : Int) (f : JobR → JobR) : DB :=
  { db with jobs := db.jobs.map (fun j => if j.id == jobId then f j else j) }

/-- The owning user of a job, through its automation. -/
def jobOwner (db : DB) (jobId : Int) : Option Int :=
  (db.jobs.find? (fun j => j.id == jobId)).bind (fun j =>
    (db.automations.find? (fun a => a.id == j.automationId)).map (fun a => a.userId))

/- ===== app/api/routers/jobs.py ===== -/

/-- `GET /jobs/\x7bjob_id\x7d` (`get_job`): the query selects the job by id
alone; `current_user` is required for authentication but never used in
the query.  Returns the serialized row or none (404). -/
def apiGetJob (db : DB) (_currentUserId jobId : Int) : Option (Int × String × Option Stats) :=
  (db.jobs.find? (fun j => j.id == jobId)).map (fun j => (j.id, j.status, j.stats))

/-- `DELETE /jobs/\x7bjob_id\x7d` (`cancel_job`): 404 when the job does not
exist, 400 unless the status is pending or running, otherwise set the
status to "cancelled" and commit.  No tenancy filter here either. -/
def apiCancelJob (db : DB) (_currentUserId jobId : Int) : Except Nat DB :=
  match db.jobs.find? (fun j => j.id == jobId) with
  | none => .error 404
  | some j =>
      if j.status ≠ "pending" && j.status ≠ "running" then .error 400
      else .ok (updateJob db jobId (fun j => { j with status := "cancelled" }))

/- ===== app/sources/invoice.py ===== -/

/-- The `Invoice` dataclass.  Its fields are `date`, `invoice_id`,
`amount_text`, `amount_eur`, `download_url`, `view_url`, `source`; it has
no `amount` and no `file_path` attribute. -/
structure Invoice where
  date : String
  invoice_id : Option String := none
  amount_text : Option String := none
  amountEurCents : Option Int := none
  download_url : Option String := none
  view_url : Option String := none
  source : Option String := none
deriving DecidableEq, Repr

/- ===== app/workers/job_worker.py ===== -/

inductive Event where
  | jobCompleted (jobId automationId userId : Int) (stats : Stats)
  | jobFailed (jobId automationId userId : Int) (errorMessage : String)
  | sourceExecute (jobId automationId userId sourceId : Int) (sourceType sourceName : String)
deriving DecidableEq, Repr

structure JobStartedEvent where
  jobId : Int
  automationId : Int
  userId : Int
  fromDate : Option String := none
  maxResults : Option Int := none
deriving DecidableEq, Repr

/-- External side-effect state threaded through export handler calls. -/
structure Eff where
  fs : FS
  sinkCalls : List CreateArgs
deriving DecidableEq, Repr

/-- One `ExportHistory` row as `_create_export_history` inserts it. -/
structure HistoryRow where
  jobId : Int
  exportId : Int
  exportType : String
  status : String
  context : Dict
  externalReference : Option String
  errorMessage : Option String
deriving DecidableEq, Repr

/-- How a dispatched handler instance executes: the worker only sees
`handler.export`, which never raises (every handler wraps its body in a
catch-all returning a failed result). -/
abbrev HandlerRunner := HandlerKind → Dict → Dict → Dict → Eff → ExportResult × Eff

/-- The canonical runner: LocalStorage acts on the filesystem, Paheko on
the accounting sink; Google Drive delegates to its (external) drive
client, abstracted as a function. -/
def stdHandlerRunner (sink : PahekoSink)
    (gdrive : Dict → Dict → Dict → ExportResult) : HandlerRunner :=
  fun kind cfg data ctx eff =>
    match kind with
    | .localStorage =>
        let (r, fs) := localStorageExport cfg data ctx eff.fs
        (r, { eff with fs := fs })
    | .paheko =>
        let (r, calls) := pahekoExport cfg data ctx sink
        (r, { eff with sinkCalls := eff.sinkCalls ++ calls })
    | .googleDrive => (gdrive cfg data ctx, eff)

/-- `JobWorker._execute_export`: dispatch through `get_export_handler`;
the ValueError an unknown type raises is caught by the surrounding
`except`, which turns it into a failed result dict. -/
def executeExport (hr : HandlerRunner) (ty : String) (cfg data ctx : Dict) (eff : Eff) :
    ExportResult × Eff :=
  match get_export_handler ty with
  | .error e => ({ status := "failed", error_message := some e }, eff)
  | .ok kind => hr kind cfg data ctx eff

/-- The invoice-extraction loop of `_execute_workflow` (lines 175-201):
a source whose runner raises is logged and skipped; a successful source
increments `sources_executed` and `invoices_extracted`. -/
def runSources (runner : SourceR → Except String (List Invoice)) :
    List SourceR → Stats → Stats × List (Invoice × SourceR)
  | [], st => (st, [])
  | s :: rest, st =>
      match runner s with
      | .ok invs =>
          let st1 := statsIncr (statsIncr st "sources_executed" 1)
            "invoices_extracted" invs.length
          let (st2, pairs) := runSources runner rest st1
          (st2, invs.map (fun i => (i, s)) ++ pairs)
      | .error _ => runSources runner rest st

/-- The per-invoice context and invoice_data dicts of `_execute_workflow`
(lines 234-250).  The dict literals evaluate `invoice.amount` (line 237)
and `invoice.file_path` (line 246), attributes the `Invoice` dataclass
does not define, so in Python the construction raises AttributeError
before either dict exists; the surrounding `except` catches it.  The
exact runtime message is: 'Invoice' object has no attribute 'amount'. -/
def buildContextData (_invoice : Invoice) (_sourceName : String) : Except String (Dict × Dict) :=
  .error "AttributeError: Invoice object has no attribute amount"

/-- Processing of one (mapping, export) for one invoice: build the dicts,
execute the export, record exactly one history row; on an exception the
`except` branch records a failed row with an empty context (the `context`
local was never assigned). -/
def processMapping (hr : HandlerRunner) (jobId : Int) (exports : List ExportR)
    (invoice : Invoice) (sourceName : String) (m : MappingR)
    (acc : Stats × List HistoryRow × Eff) : Stats × List HistoryRow × Eff :=
  let (st, history, eff) := acc
  match exports.find? (fun e => e.id == m.exportId) with
  | none => (st, history, eff)
  | some e =>
      match buildContextData invoice sourceName with
      | .error err =>
          (statsIncr st "exports_failed" 1,
           history ++ [{ jobId := jobId, exportId := m.exportId, exportType := e.ty,
                         status := "failed", context := [],
                         externalReference := none, errorMessage := some err }],
           eff)
      | .ok (ctx, data) =>
          let (result, eff') := executeExport hr e.ty e.configuration data ctx eff
          let st' :=
            if result.status == "success" || result.status == "duplicate_skipped" then
              statsIncr st "exports_completed" 1
            else statsIncr st "exports_failed" 1
          (st',
           history ++ [{ jobId := jobId, exportId := m.exportId, exportType := e.ty,
                         status := result.status, context := ctx,
                         externalReference := result.external_reference,
                         errorMessage := result.error_message }],
           eff')

/-- The export loop over all (invoice, source) pairs (lines 213-301):
invoices whose source has no mapping are skipped. -/
def exportPhase (hr : HandlerRunner) (jobId : Int) (mappings : List MappingR)
    (exports : List ExportR) :
    List (Invoice × SourceR) → Stats × List HistoryRow × Eff → Stats × List HistoryRow × Eff
  | [], acc => acc
  | (invoice, source) :: rest, acc =>
      let mapped := mappings.filter (fun m => m.sourceId == source.id)
      let acc' := mapped.foldl
        (fun a m => processMapping hr jobId exports invoice source.name m a) acc
      exportPhase hr jobId mappings exports rest acc'

/-- `JobWorker._execute_workflow`.  Wall-clock time is constant in the
model, so `duration_seconds` stays 0. -/
def executeWorkflow (runner : SourceR → Except String (List Invoice)) (hr : HandlerRunner)
    (jobId : Int) (sources : List SourceR) (exports : List ExportR)
    (mappings : List MappingR) (history : List HistoryRow) (eff : Eff) :
    Stats × List HistoryRow × Eff :=
  let st0 : Stats :=
    [("sources_executed", 0), ("invoices_extracted", 0), ("exports_completed", 0),
     ("exports_failed", 0), ("duration_seconds", 0)]
  let (st1, pairs) := runSources runner sources st0
  if pairs.isEmpty then (st1, history, eff)
  else exportPhase hr jobId mappings exports pairs (st1, history, eff)

structure WorkerWorld where
  db : DB
  published : List Event
  history : List HistoryRow
  eff : Eff
deriving DecidableEq, Repr

/-- `JobWorker._update_job_status`. -/
def workerUpdateJobStatus (db : DB) (jobId : Int) (status : String)
    (startedAt : Option Nat) (now : Nat) : DB :=
  updateJob db jobId (fun j =>
    let j1 := { j with status := status }
    let j2 := match startedAt with
      | some t => { j1 with startedAt := some t }
      | none => j1
    if status == "completed" || status == "failed" then { j2 with completedAt := some now }
    else j2)

/-- `JobWorker._complete_job`: set status/stats and publish job.completed.
The error_message column is left untouched. -/
def workerCompleteJob (w : WorkerWorld) (ev : JobStartedEvent) (stats : Stats)
    (now : Nat) : WorkerWorld :=
  { w with
    db := updateJob w.db ev.jobId (fun j =>
      { j with status := "completed", completedAt := some now, stats := some stats }),
    published := w.published ++ [.jobCompleted ev.jobId ev.automationId ev.userId stats] }

/-- `JobWorker._fail_job`: set status/error and publish job.failed. -/
def workerFailJob (w : WorkerWorld) (ev : JobStartedEvent) (msg : String)
    (now : Nat) : WorkerWorld :=
  { w with
    db := updateJob w.db ev.jobId (fun j =>
      { j with status := "failed", completedAt := some now, errorMessage := some msg }),
    published := w.published ++ [.jobFailed ev.jobId ev.automationId ev.userId msg] }

/-- `JobWorker.handle_job_started`: note there is no check of the current
`Job.status` anywhere — the job is unconditionally moved to running and
the full workflow is executed. -/
def workerHandleJobStarted (runner : SourceR → Except String (List Invoice))
    (hr : HandlerRunner) (now : Nat) (ev : JobStartedEvent) (w : WorkerWorld) :
    WorkerWorld :=
  let w1 := { w with db := workerUpdateJobStatus w.db ev.jobId "running" (some now) now }
  match getAutomation w1.db ev.automationId ev.userId with
  | none =>
      workerFailJob w1 ev
        ("Job execution failed: Automation " ++ toString ev.automationId ++ " not found") now
  | some _ =>
      let sources := getActiveSources w1.db ev.automationId
      let exports := getActiveExports w1.db ev.automationId
      if sources.isEmpty then
        workerFailJob w1 ev "Job execution failed: No sources configured for automation" now
      else if exports.isEmpty then
        workerFailJob w1 ev "Job execution failed: No exports configured for automation" now
      else
        let (stats, history, eff) :=
          executeWorkflow runner hr ev.jobId sources exports w1.db.mappings w1.history w1.eff
        workerCompleteJob { w1 with history := history, eff := eff } ev stats now

/- ===== app/workers/job_coordinator.py ===== -/

structure CoordWorld where
  db : DB
  published : List Event
  jobSources : List (Int × List (Int × String))
deriving DecidableEq, Repr

/-- `JobCoordinator._update_job_status`. -/
def coordUpdateJobStatus (db : DB) (jobId : Int) (status : String) (now : Nat) : DB :=
  updateJob db jobId (fun j =>
    let j1 := { j with status := status }
    if status == "running" then { j1 with startedAt := some now }
    else if status == "completed" || status == "failed" then { j1 with completedAt := some now }
    else j1)

/-- `JobCoordinator._complete_job`: mark completed, publish job.completed,
drop the tracking entries. -/
def coordCompleteJob (w : CoordWorld) (ev : JobStartedEvent) (stats : Stats)
    (now : Nat) : CoordWorld :=
  { w with
    db := updateJob w.db ev.jobId (fun j =>
      { j with status := "completed", completedAt := some now, stats := some stats }),
    published := w.published ++ [.jobCompleted ev.jobId ev.automationId ev.userId stats],
    jobSources := w.jobSources.filter (fun p => p.1 ≠ ev.jobId) }

/-- `JobCoordinator._fail_job`. -/
def coordFailJob (w : CoordWorld) (ev : JobStartedEvent) (msg : String)
    (now : Nat) : CoordWorld :=
  { w with
    db := updateJob w.db ev.jobId (fun j =>
      { j with status := "failed", completedAt := some now, errorMessage := some msg }),
    published := w.published ++ [.jobFailed ev.jobId ev.automationId ev.userId msg],
    jobSources := w.jobSources.filter (fun p => p.1 ≠ ev.jobId) }

/-- `JobCoordinator.handle_job_started`.  With no active source the job is
completed immediately with stats `\x7bsources_executed: 0, exports_completed: 0\x7d`;
otherwise the job is moved to running and one source.execute event is
published per source.  The 30-minute timeout task is asynchronous real
time and is outside this model; like the worker, the coordinator never
inspects the current `Job.status`. -/
def coordHandleJobStarted (now : Nat) (ev : JobStartedEvent) (w : CoordWorld) : CoordWorld :=
  let w0 := { w with jobSources := (ev.jobId, []) :: w.jobSources }
  match getAutomation w0.db ev.automationId ev.userId with
  | none =>
      coordFailJob w0 ev
        ("Failed to start job: Automation " ++ toString ev.automationId ++ " not found") now
  | some _ =>
      let sources := getActiveSources w0.db ev.automationId
      if sources.isEmpty then
        coordCompleteJob w0 ev [("sources_executed", 0), ("exports_completed", 0)] now
      else
        let w1 := { w0 with db := coordUpdateJobStatus w0.db ev.jobId "running" now }
        { w1 with
          published := w1.published ++ sources.map (fun s =>
            Event.sourceExecute ev.jobId ev.automationId ev.userId s.id s.ty s.name),
          jobSources := (ev.jobId, sources.map (fun s => (s.id, "pending"))) ::
            w1.jobSources.filter (fun p => p.1 ≠ ev.jobId) }

/- ===== app/core/date_utils.py ===== -/

def sepDashSlash (c : Char) : Bool := c == '-' || c == '/'

/-- Match the fixed-width pattern `(\x5cd\x7b4\x7d)[dash or slash](\x5cd\x7b2\x7d)[dash or slash](\x5cd\x7b2\x7d)` at the head
of the character list. -/
def matchYMDAt : List Char → Option (Nat × Nat × Nat)
  | y1 :: y2 :: y3 :: y4 :: s1 :: m1 :: m2 :: s2 :: d1 :: d2 :: _ =>
      if [y1, y2, y3, y4, m1, m2, d1, d2].all Char.isDigit &&
          sepDashSlash s1 && sepDashSlash s2 then
        some (digitsToNat [y1, y2, y3, y4], digitsToNat [m1, m2], digitsToNat [d1, d2])
      else none
  | _ => none

/-- `re.search` of that pattern: try every start position, left to right. -/
def searchYMD : List Char → Option (Nat × Nat × Nat)
  | [] => none
  | c :: rest =>
      match matchYMDAt (c :: rest) with
      | some r => some r
      | none => searchYMD rest

/-- Match `(\x5cd\x7b4\x7d)[dash or slash](\x5cd\x7b2\x7d)` at the head. -/
def matchYMAt : List Char → Option (Nat × Nat)
  | y1 :: y2 :: y3 :: y4 :: s1 :: m1 :: m2 :: _ =>
      if [y1, y2, y3, y4, m1, m2].all Char.isDigit && sepDashSlash s1 then
        some (digitsToNat [y1, y2, y3, y4], digitsToNat [m1, m2])
      else none
  | _ => none

def searchYM : List Char → Option (Nat × Nat)
  | [] => none
  | c :: rest =>
      match matchYMAt (c :: rest) with
      | some r => some r
      | none => searchYM rest

/-- Match `(\x5cd\x7b2\x7d)[dash or slash](\x5cd\x7b4\x7d)` at the head. -/
def matchMYAt : List Char → Option (Nat × Nat)
  | m1 :: m2 :: s1 :: y1 :: y2 :: y3 :: y4 :: _ =>
      if [m1, m2, y1, y2, y3, y4].all Char.isDigit && sepDashSlash s1 then
        some (digitsToNat [m1, m2], digitsToNat [y1, y2, y3, y4])
      else none
  | _ => none

def searchMY : List Char → Option (Nat × Nat)
  | [] => none
  | c :: rest =>
      match matchMYAt (c :: rest) with
      | some r => some r
      | none => searchMY rest

/-- Match `(\x5cd\x7b4\x7d)` at the head. -/
def match4At : List Char → Option Nat
  | a :: b :: c :: d :: _ =>
      if [a, b, c, d].all Char.isDigit then some (digitsToNat [a, b, c, d]) else none
  | _ => none

def search4 : List Char → Option Nat
  | [] => none
  | c :: rest =>
      match match4At (c :: rest) with
      | some r => some r
      | none => search4 rest

/-- The French month names in the iteration order of
`FRENCH_MONTH_NAME_TO_NUM` (insertion order janvier..décembre). -/
def frenchMonthNamesOrdered : List (String × Nat) :=
  [("janvier", 1), ("février", 2), ("mars", 3), ("avril", 4), ("mai", 5),
   ("juin", 6), ("juillet", 7), ("août", 8), ("septembre", 9), ("octobre", 10),
   ("novembre", 11), ("décembre", 12)]

def isPrefixChars : List Char → List Char → Bool
  | [], _ => true
  | _ :: _, [] => false
  | a :: as, b :: bs => a == b && isPrefixChars as bs

/-- `needle in haystack` on character lists. -/
def containsSub (needle : List Char) : List Char → Bool
  | [] => needle.isEmpty
  | c :: rest => isPrefixChars needle (c :: rest) || containsSub needle rest

/-- The first French month name occurring (as a substring) in the
lowercased text, with its month number. -/
def frenchMonthFind (lowerCs : List Char) : Option Nat :=
  (frenchMonthNamesOrdered.find? (fun p => containsSub p.1.toList lowerCs)).map
    (fun p => p.2)

/-- Fallback steps of `parse_date_label_to_date` after the `YYYY-MM-DD`
search.  `date(y, m, 1)` raising (month out of range, year 0) makes the
function return None, with no further fallthrough. -/
def parseYMStep (txt : String) (cs : List Char) : Option PDate :=
  match searchYM cs with
  | some (y, m) => if isValidDate y m 1 then some ⟨y, m, 1⟩ else none
  | none =>
      match searchMY cs with
      | some (m, y) => if isValidDate y m 1 then some ⟨y, m, 1⟩ else none
      | none =>
          match search4 cs with
          | some y =>
              -- Python lowercases the text before the substring scan; the
              -- model lowercases ASCII letters, which agrees on every input
              -- whose accented characters are already lowercase
              match frenchMonthFind (lowerStr txt).toList with
              | some m => if isValidDate y m 1 then some ⟨y, m, 1⟩ else none
              | none => if isValidDate y 1 1 then some ⟨y, 1, 1⟩ else none
          | none => none

/-- `parse_date_label_to_date`.  Every pattern is searched (substring
semantics) on the stripped label; a matched-but-invalid `YYYY-MM-DD`
falls through (`pass`), the later steps return None on an invalid date. -/
def parse_date_label_to_date (date_label : String) : Option PDate :=
  if date_label = "" then none
  else
    let txt := strTrim date_label
    let cs := txt.toList
    match searchYMD cs with
    | some (y, m, d) => if isValidDate y m d then some ⟨y, m, d⟩ else parseYMStep txt cs
    | none => parseYMStep txt cs

/-- A window of four digits at the head of the list. -/
def win4 : List Char → Bool
  | a :: b :: c :: d :: _ => a.isDigit && b.isDigit && c.isDigit && d.isDigit
  | _ => false

/-- Whether the list contains four consecutive digits anywhere. -/
def hasRun4 (l : List Char) : Bool := l.tails.any win4

/-- Modelled from the spec: a string that is exactly one of the accepted
date-label forms of §4.5 — `YYYY-MM-DD`, `YYYY-MM`, `YYYY/MM`, `MM/YYYY`,
`"<FrenchMonth> YYYY"`, or bare `YYYY`.  Used only to compare the spec's
claimed acceptance set with the code's behavior. -/
def isSpecDateForm (s : String) : Bool :=
  (match s.toList with
   | [a, b, c, d, '-', e, f, '-', g, h] => [a, b, c, d, e, f, g, h].all Char.isDigit
   | _ => false) ||
  (match s.toList with
   | [a, b, c, d, x, e, f] => [a, b, c, d, e, f].all Char.isDigit && sepDashSlash x
   | _ => false) ||
  (match s.toList with
   | [a, b, '/', c, d, e, f] => [a, b, c, d, e, f].all Char.isDigit
   | _ => false) ||
  (match strSplitOnChar s ' ' with
   | [w, y] =>
       frenchMonthNamesOrdered.any (fun p => p.1 == lowerStr w) &&
         strAllDigits y && y.length = 4
   | _ => false) ||
  (strAllDigits s && s.length = 4)

/- ===== Concrete scenarios used by the theorems below ===== -/

/-- A Google Drive handler stand-in for scenarios that never dispatch to
it (the drive client is an external collaborator). -/
def trivialGdrive : Dict → Dict → Dict → ExportResult :=
  fun _ _ _ => { status := "failed", error_message := some "not configured" }

/-- A Paheko sink for scenarios that never dispatch to the Paheko
handler. -/
def trivialSink : PahekoSink :=
  { hasClient := false, years := [], journal := fun _ _ => .ok [],
    create := fun _ => none }

/-- C1 scenario: a job that already reached the terminal status `failed`,
whose `job.started` event is redelivered.  One active source (whose
runner returns no invoices) and one active export. -/
def c1DB : DB :=
  { automations := [{ id := 1, userId := 1 }],
    sources := [{ id := 10, automationId := 1, name := "S", ty := "Gmail", active := true }],
    exports := [{ id := 20, automationId := 1, ty := "LocalStorage",
                  configuration := [], active := true }],
    mappings := [],
    jobs := [{ id := 1, automationId := 1, status := "failed",
               errorMessage := some "old failure",
               stats := some [("sources_executed", 1)],
               startedAt := some 5, completedAt := some 6 }] }

def c1World : WorkerWorld :=
  { db := c1DB, published := [], history := [],
    eff := { fs := { cwd := "/cwd", dirs := [], files := [] }, sinkCalls := [] } }

def c1Event : JobStartedEvent := { jobId := 1, automationId := 1, userId := 1 }

def c1Runner : SourceR → Except String (List Invoice) := fun _ => .ok []

/-- C2 counterexample scenario: an automation with zero active sources,
handled by the coordinator. -/
def c2DB : DB :=
  { automations := [{ id := 1, userId := 1 }], sources := [], exports := [],
    mappings := [], jobs := [{ id := 1, automationId := 1, status := "pending" }] }

def c2World : CoordWorld := { db := c2DB, published := [], jobSources := [] }

/-- The same no-source automation, handled by the worker. -/
def c2WorkerWorld : WorkerWorld :=
  { db := c2DB, published := [], history := [],
    eff := { fs := { cwd := "", dirs := [], files := [] }, sinkCalls := [] } }

def c2Event : JobStartedEvent := { jobId := 1, automationId := 1, userId := 1 }

/-- C2 amended scenario: worker, one active source and export but no
source-export mapping; the source yields one invoice. -/
def c2MapDB : DB :=
  { automations := [{ id := 1, userId := 1 }],
    sources := [{ id := 10, automationId := 1, name := "X", ty := "Gmail", active := true }],
    exports := [{ id := 20, automationId := 1, ty := "LocalStorage",
                  configuration := [], active := true }],
    mappings := [],
    jobs := [{ id := 1, automationId := 1, status := "pending" }] }

def c2MapWorld : WorkerWorld :=
  { db := c2MapDB, published := [], history := [],
    eff := { fs := { cwd := "/cwd", dirs := [], files := [] }, sinkCalls := [] } }

def c2MapRunner : SourceR → Except String (List Invoice) :=
  fun _ => .ok [{ date := "2025-03-15", invoice_id := some "INV-1",
                  amountEurCents := some 4200, source := some "X" }]

/-- C3 scenario: the happy path of spec §8 scenario 1 — one filesystem
export with `path_template = "\x7byear\x7d/\x7bmonth\x7d/\x7binvoice_id\x7d.pdf"` and
`base_path = "/out"`, one source returning exactly one invoice, one
mapping connecting them. -/
def c3DB : DB :=
  { automations := [{ id := 1, userId := 1 }],
    sources := [{ id := 10, automationId := 1, name := "X", ty := "Gmail", active := true }],
    exports := [{ id := 20, automationId := 1, ty := "LocalStorage",
                  configuration := [("path_template", .vs "{year}/{month}/{invoice_id}.pdf"),
                                    ("base_path", .vs "/out")],
                  active := true }],
    mappings := [{ sourceId := 10, exportId := 20 }],
    jobs := [{ id := 1, automationId := 1, status := "pending" }] }

def c3FS : FS := { cwd := "/cwd", dirs := [], files := [("/tmp/src.pdf", "pdfbytes")] }

def c3World : WorkerWorld :=
  { db := c3DB, published := [], history := [],
    eff := { fs := c3FS, sinkCalls := [] } }

def c3Invoice : Invoice :=
  { date := "2025-03-15", invoice_id := some "INV-1", amountEurCents := some 4200,
    source := some "X" }

def c3Runner : SourceR → Except String (List Invoice) := fun _ => .ok [c3Invoice]

def c3Event : JobStartedEvent := { jobId := 1, automationId := 1, userId := 1 }

/-- The invoice_data of §6.4, containing every field the handlers
require — what the worker would have to build for the happy path. -/
def c3FullInvoiceData : Dict :=
  [("file_path", .vs "/tmp/src.pdf"), ("invoice_id", .vs "INV-1"),
   ("date", .vs "2025-03-15"), ("amount_eur", .vnum 4200), ("source", .vs "X")]

def c3Context : Dict :=
  [("invoice_id", .vs "INV-1"), ("date", .vs "2025-03-15"), ("amount_eur", .vnum 4200),
   ("month", .vs "03"), ("year", .vs "2025"), ("source", .vs "X")]

/-- C4 counterexample scenario: the journal query fails (sink
unreachable) while transaction creation succeeds. -/
def c4Sink : PahekoSink :=
  { hasClient := true,
    years := [{ id := 1, start_date := "2025-01-01", end_date := "2025-12-31" }],
    journal := fun _ _ => .error "Connection refused",
    create := fun _ => some 77 }

def c4Config : Dict :=
  [("label_template", .vs "Facture {invoice_id}"), ("debit", .vs "601"),
   ("credit", .vs "512")]

def c4InvoiceData : Dict :=
  [("file_path", .vs "/tmp/src.pdf"), ("invoice_id", .vs "INV-1"),
   ("date", .vs "2025-03-15"), ("amount_eur", .vnum 4200)]

def c4Context : Dict :=
  [("invoice_id", .vs "INV-1"), ("date", .vs "2025-03-15"), ("amount_eur", .vnum 4200)]

/-- C4 duplicate scenario: the journal already holds the natural key
(2025-03-15, "Facture INV-1"). -/
def c4DupSink : PahekoSink :=
  { hasClient := true,
    years := [{ id := 1, start_date := "2025-01-01", end_date := "2025-12-31" }],
    journal := fun _ _ => .ok [{ date := "2025-03-15", label := "Facture INV-1" }],
    create := fun _ => some 9 }

/-- C5 counterexample scenario: two active sources whose runners both
raise. -/
def c5DB : DB :=
  { automations := [{ id := 1, userId := 1 }],
    sources := [{ id := 10, automationId := 1, name := "A", ty := "Gmail", active := true },
                { id := 11, automationId := 1, name := "B", ty := "Gmail", active := true }],
    exports := [{ id := 20, automationId := 1, ty := "LocalStorage",
                  configuration := [], active := true }],
    mappings := [],
    jobs := [{ id := 1, automationId := 1, status := "pending" }] }

def c5World : WorkerWorld :=
  { db := c5DB, published := [], history := [],
    eff := { fs := { cwd := "/cwd", dirs := [], files := [] }, sinkCalls := [] } }

def c5Event : JobStartedEvent := { jobId := 1, automationId := 1, userId := 1 }

def c5Runner : SourceR → Except String (List Invoice) :=
  fun _ => .error "scrape crashed"

/-- C6 scenario: job 1 belongs to an automation owned by user 2; user 1
performs the lookup. -/
def c6DB : DB :=
  { automations := [{ id := 1, userId := 2 }], sources := [], exports := [],
    mappings := [],
    jobs := [{ id := 1, automationId := 1, status := "completed" }] }

/-- C7 scenario: one job in each status. -/
def c7DB : DB :=
  { automations := [{ id := 1, userId := 1 }], sources := [], exports := [],
    mappings := [],
    jobs := [{ id := 1, automationId := 1, status := "running" },
             { id := 2, automationId := 1, status := "completed" },
             { id := 3, automationId := 1, status := "pending" },
             { id := 4, automationId := 1, status := "failed" }] }

/-- Modelled from the spec: the closed variable set claimed in §4.3 /
§6.4 for path templates. -/
def c8ClaimedVars : List String :=
  ["year", "month", "month_name", "quarter", "date", "invoice_id", "source",
   "amount", "filename"]

/- ===== Theorems ===== -/

/- Helper lemmas (shared; not claim theorems). -/

theorem updateJob_find (db : DB) (jid : Int) (f : JobR → JobR)
    (hid : ∀ j, (f j).id = j.id) :
    (updateJob db jid f).jobs.find? (fun j => j.id == jid) =
      (db.jobs.find? (fun j => j.id == jid)).map f := by
  show (db.jobs.map _).find? _ = _
  induction db.jobs with
  | nil => rfl
  | cons j t ih =>
      rw [List.map_cons, List.find?_cons, List.find?_cons]
      cases hj : (j.id == jid) with
      | true =>
          have hfj : ((f j).id == jid) = true := by rw [hid j]; exact hj
          simp [hj, hfj]
      | false =>
          have hfj : ((f j).id == jid) = false := by rw [hid j]; exact hj
          simp only [hj, hfj, Bool.false_eq_true, if_false]
          exact ih

theorem getAutomation_workerUpdateJobStatus (db : DB) (jid : Int) (st : String)
    (t : Option Nat) (n : Nat) (a u : Int) :
    getAutomation (workerUpdateJobStatus db jid st t n) a u = getAutomation db a u := rfl

theorem getActiveSources_workerUpdateJobStatus (db : DB) (jid : Int) (st : String)
    (t : Option Nat) (n : Nat) (a : Int) :
    getActiveSources (workerUpdateJobStatus db jid st t n) a = getActiveSources db a := rfl

theorem getActiveExports_workerUpdateJobStatus (db : DB) (jid : Int) (st : String)
    (t : Option Nat) (n : Nat) (a : Int) :
    getActiveExports (workerUpdateJobStatus db jid st t n) a = getActiveExports db a := rfl

theorem mappings_workerUpdateJobStatus (db : DB) (jid : Int) (st : String)
    (t : Option Nat) (n : Nat) :
    (workerUpdateJobStatus db jid st t n).mappings = db.mappings := rfl

theorem exportPhase_nil_mappings (hr : HandlerRunner) (jobId : Int)
    (exports : List ExportR) :
    ∀ (pairs : List (Invoice × SourceR)) (acc : Stats × List HistoryRow × Eff),
      exportPhase hr jobId [] exports pairs acc = acc := by
  intro pairs
  induction pairs with
  | nil => intro acc; rfl
  | cons p t ih =>
      intro acc
      obtain ⟨invoice, source⟩ := p
      simp [exportPhase, List.filter, ih]

/-- Claim C6 (code bug): the claim — every read path resolving a Job
filters by the owning `Automation.user_id` — is the spec's clearly stated
intent, but `get_job` in `app/api/routers/jobs.py` selects the job by id
alone; here user 1 retrieves the job of an automation owned by user 2
instead of getting a 404. -/
theorem get_job_skips_tenancy_filter :
    apiGetJob c6DB 1 1 = some (1, "completed", none) ∧
    jobOwner c6DB 1 = some 2 ∧ (2 : Int) ≠ 1 :=
  ⟨rfl, rfl, by decide⟩

/-- Claim C7 (code bug): the store-level cancellation does transition a
pending or running job to `cancelled` and rejects terminal jobs with 400,
but the `Job.status` check constraint in `app/db/models.py` enumerates
only pending/running/completed/failed — `cancelled` is not admitted by
the persisted schema, contradicting the write the router performs. -/
theorem cancel_writes_status_outside_check_constraint :
    ((apiCancelJob c7DB 1 1).toOption.map (fun db => db.jobs.map (fun j => j.status)) =
      some ["cancelled", "completed", "pending", "failed"]) ∧
    ((apiCancelJob c7DB 1 3).toOption.map (fun db => db.jobs.map (fun j => j.status)) =
      some ["running", "completed", "cancelled", "failed"]) ∧
    apiCancelJob c7DB 1 2 = .error 400 ∧
    apiCancelJob c7DB 1 4 = .error 400 ∧
    "cancelled" ∉ jobStatusEnum :=
  ⟨rfl, rfl, rfl, rfl, by decide⟩

/-- Claim C2 counterexample: an automation with no active source is
finalized as `completed` by the coordinator — publishing `job.completed`
with stats `\x7bsources_executed: 0, exports_completed: 0\x7d` — not as
`failed` with error_message "EmptyPipeline" and a `job.failed` event as
the claim states. -/
theorem coordinator_completes_on_empty_pipeline :
    (coordHandleJobStarted 100 c2Event c2World).db.jobs =
      [{ id := 1, automationId := 1, status := "completed", errorMessage := none,
         stats := some [("sources_executed", 0), ("exports_completed", 0)],
         startedAt := none, completedAt := some 100 }] ∧
    (coordHandleJobStarted 100 c2Event c2World).published =
      [.jobCompleted 1 1 1 [("sources_executed", 0), ("exports_completed", 0)]] :=
  ⟨rfl, rfl⟩

/-- Claim C2 amended: no "EmptyPipeline" failure exists.  The coordinator
completes a job immediately when the automation has no active source; the
worker fails it with "Job execution failed: No sources configured for
automation" (resp. "... No exports configured for automation"); and a
missing source-export mapping never fails the job — its invoices are
skipped and the job completes with no history row. -/
theorem empty_pipeline_code_behavior :
    (∀ (now : Nat) (ev : JobStartedEvent) (w : CoordWorld) (a : AutomationR),
      getAutomation w.db ev.automationId ev.userId = some a →
      getActiveSources w.db ev.automationId = [] →
      (coordHandleJobStarted now ev w).published =
        w.published ++ [.jobCompleted ev.jobId ev.automationId ev.userId
          [("sources_executed", 0), ("exports_completed", 0)]] ∧
      (coordHandleJobStarted now ev w).db.jobs.find? (fun j => j.id == ev.jobId) =
        (w.db.jobs.find? (fun j => j.id == ev.jobId)).map (fun j =>
          { j with status := "completed", completedAt := some now,
                   stats := some [("sources_executed", 0), ("exports_completed", 0)] })) ∧
    (∀ (runner : SourceR → Except String (List Invoice)) (hr : HandlerRunner)
        (now : Nat) (ev : JobStartedEvent) (w : WorkerWorld) (a : AutomationR),
      getAutomation w.db ev.automationId ev.userId = some a →
      getActiveSources w.db ev.automationId = [] →
      (workerHandleJobStarted runner hr now ev w).published =
        w.published ++ [.jobFailed ev.jobId ev.automationId ev.userId
          "Job execution failed: No sources configured for automation"] ∧
      (workerHandleJobStarted runner hr now ev w).db.jobs.find? (fun j => j.id == ev.jobId) =
        (w.db.jobs.find? (fun j => j.id == ev.jobId)).map (fun j =>
          { j with status := "failed", startedAt := some now, completedAt := some now,
                   errorMessage :=
                     some "Job execution failed: No sources configured for automation" })) ∧
    (∀ (runner : SourceR → Except String (List Invoice)) (hr : HandlerRunner)
        (now : Nat) (ev : JobStartedEvent) (w : WorkerWorld) (a : AutomationR)
        (s : SourceR) (ss : List SourceR),
      getAutomation w.db ev.automationId ev.userId = some a →
      getActiveSources w.db ev.automationId = s :: ss →
      getActiveExports w.db ev.automationId = [] →
      (workerHandleJobStarted runner hr now ev w).published =
        w.published ++ [.jobFailed ev.jobId ev.automationId ev.userId
          "Job execution failed: No exports configured for automation"] ∧
      (workerHandleJobStarted runner hr now ev w).db.jobs.find? (fun j => j.id == ev.jobId) =
        (w.db.jobs.find? (fun j => j.id == ev.jobId)).map (fun j =>
          { j with status := "failed", startedAt := some now, completedAt := some now,
                   errorMessage :=
                     some "Job execution failed: No exports configured for automation" })) ∧
    ((workerHandleJobStarted c2MapRunner (stdHandlerRunner trivialSink trivialGdrive)
        100 c2Event c2MapWorld).db.jobs.map (fun j => (j.status, j.errorMessage)) =
      [("completed", none)] ∧
     (workerHandleJobStarted c2MapRunner (stdHandlerRunner trivialSink trivialGdrive)
        100 c2Event c2MapWorld).history = []) := by
  refine ⟨?_, ?_, ?_, rfl, rfl⟩
  · intro now ev w a hA hS
    constructor
    · simp [coordHandleJobStarted, hA, hS, coordCompleteJob]
    · simp only [coordHandleJobStarted, hA, hS]
      simp only [List.isEmpty_nil, if_true, coordCompleteJob]
      exact updateJob_find w.db ev.jobId _ (fun j => rfl)
  · intro runner hr now ev w a hA hS
    constructor
    · simp [workerHandleJobStarted, getAutomation_workerUpdateJobStatus,
        getActiveSources_workerUpdateJobStatus, hA, hS, workerFailJob]
    · simp only [workerHandleJobStarted, getAutomation_workerUpdateJobStatus,
        getActiveSources_workerUpdateJobStatus, hA, hS]
      simp only [List.isEmpty_nil, if_true, workerFailJob, workerUpdateJobStatus]
      rw [updateJob_find, updateJob_find, Option.map_map]
      · cases w.db.jobs.find? (fun j => j.id == ev.jobId) with
        | none => rfl
        | some j => rfl
      · intro j; rfl
      · intro j; rfl
  · intro runner hr now ev w a s ss hA hS hE
    constructor
    · simp [workerHandleJobStarted, getAutomation_workerUpdateJobStatus,
        getActiveSources_workerUpdateJobStatus, getActiveExports_workerUpdateJobStatus,
        hA, hS, hE, workerFailJob]
    · simp only [workerHandleJobStarted, getAutomation_workerUpdateJobStatus,
        getActiveSources_workerUpdateJobStatus, getActiveExports_workerUpdateJobStatus,
        hA, hS, hE]
      simp only [List.isEmpty_cons, List.isEmpty_nil, if_true, Bool.false_eq_true,
        if_false, workerFailJob, workerUpdateJobStatus]
      rw [updateJob_find, updateJob_find, Option.map_map]
      · cases w.db.jobs.find? (fun j => j.id == ev.jobId) with
        | none => rfl
        | some j => rfl
      · intro j; rfl
      · intro j; rfl

/-- Witness for C2: the amended behaviors at concrete worlds. -/
theorem empty_pipeline_code_behavior_witness :
    (coordHandleJobStarted 100 c2Event c2World).published =
      [.jobCompleted 1 1 1 [("sources_executed", 0), ("exports_completed", 0)]] ∧
    (workerHandleJobStarted c1Runner (stdHandlerRunner trivialSink trivialGdrive)
        100 c2Event c2WorkerWorld).published =
      [.jobFailed 1 1 1 "Job execution failed: No sources configured for automation"] := by
  constructor
  · have h := (empty_pipeline_code_behavior.1 100 c2Event c2World { id := 1, userId := 1 })
      rfl rfl
    simpa using h.1
  · have h := (empty_pipeline_code_behavior.2.1 c1Runner
      (stdHandlerRunner trivialSink trivialGdrive) 100 c2Event c2WorkerWorld
      { id := 1, userId := 1 } rfl rfl)
    simpa using h.1

/-- Claim C5 counterexample: when every source run raises, the job is
NOT finalized as failed with "AllSourcesFailed" — the worker swallows
each failure, extracts nothing, and completes the job, publishing
`job.completed`; moreover the stats dict carries no `sources_failed`
counter at all. -/
theorem all_sources_failing_still_completes :
    (workerHandleJobStarted c5Runner (stdHandlerRunner trivialSink trivialGdrive)
        100 c5Event c5World).db.jobs =
      [{ id := 1, automationId := 1, status := "completed", errorMessage := none,
         stats := some [("sources_executed", 0), ("invoices_extracted", 0),
                        ("exports_completed", 0), ("exports_failed", 0),
                        ("duration_seconds", 0)],
         startedAt := some 100, completedAt := some 100 }] ∧
    (workerHandleJobStarted c5Runner (stdHandlerRunner trivialSink trivialGdrive)
        100 c5Event c5World).published =
      [.jobCompleted 1 1 1 [("sources_executed", 0), ("invoices_extracted", 0),
                            ("exports_completed", 0), ("exports_failed", 0),
                            ("duration_seconds", 0)]] ∧
    statsLookup [("sources_executed", 0), ("invoices_extracted", 0),
      ("exports_completed", 0), ("exports_failed", 0), ("duration_seconds", 0)]
      "sources_failed" = none :=
  ⟨rfl, rfl, rfl⟩

/-- Claim C5 amended: a raising source is skipped and the job drains the
remaining sources to a terminal `completed` state, but the failure is
counted nowhere — the stats dict the worker builds has no `sources_failed`
key; and when every source raises the job still completes (with zero
counts) instead of failing with "AllSourcesFailed". -/
theorem source_failures_swallowed_not_counted :
    (∀ (runner : SourceR → Except String (List Invoice)) (hr : HandlerRunner)
        (now : Nat) (ev : JobStartedEvent) (w : WorkerWorld) (a : AutomationR)
        (s1 s2 : SourceR) (e : ExportR) (es : List ExportR) (msg : String)
        (invs : List Invoice),
      getAutomation w.db ev.automationId ev.userId = some a →
      getActiveSources w.db ev.automationId = [s1, s2] →
      getActiveExports w.db ev.automationId = e :: es →
      w.db.mappings = [] →
      runner s1 = .error msg →
      runner s2 = .ok invs →
      ((workerHandleJobStarted runner hr now ev w).db.jobs.find? (fun j => j.id == ev.jobId) =
        (w.db.jobs.find? (fun j => j.id == ev.jobId)).map (fun j =>
          { j with status := "completed", startedAt := some now, completedAt := some now,
                   stats := some [("sources_executed", 1),
                                  ("invoices_extracted", (invs.length : Int)),
                                  ("exports_completed", 0), ("exports_failed", 0),
                                  ("duration_seconds", 0)] }) ∧
       (workerHandleJobStarted runner hr now ev w).published =
         w.published ++ [.jobCompleted ev.jobId ev.automationId ev.userId
           [("sources_executed", 1), ("invoices_extracted", (invs.length : Int)),
            ("exports_completed", 0), ("exports_failed", 0), ("duration_seconds", 0)]] ∧
       (workerHandleJobStarted runner hr now ev w).history = w.history ∧
       statsLookup [("sources_executed", 1), ("invoices_extracted", (invs.length : Int)),
         ("exports_completed", 0), ("exports_failed", 0), ("duration_seconds", 0)]
         "sources_failed" = none)) ∧
    (∀ (runner : SourceR → Except String (List Invoice)) (hr : HandlerRunner)
        (now : Nat) (ev : JobStartedEvent) (w : WorkerWorld) (a : AutomationR)
        (s1 s2 : SourceR) (e : ExportR) (es : List ExportR) (m1 m2 : String),
      getAutomation w.db ev.automationId ev.userId = some a →
      getActiveSources w.db ev.automationId = [s1, s2] →
      getActiveExports w.db ev.automationId = e :: es →
      runner s1 = .error m1 →
      runner s2 = .error m2 →
      ((workerHandleJobStarted runner hr now ev w).db.jobs.find? (fun j => j.id == ev.jobId) =
        (w.db.jobs.find? (fun j => j.id == ev.jobId)).map (fun j =>
          { j with status := "completed", startedAt := some now, completedAt := some now,
                   stats := some [("sources_executed", 0), ("invoices_extracted", 0),
                                  ("exports_completed", 0), ("exports_failed", 0),
                                  ("duration_seconds", 0)] }) ∧
       (workerHandleJobStarted runner hr now ev w).published =
         w.published ++ [.jobCompleted ev.jobId ev.automationId ev.userId
           [("sources_executed", 0), ("invoices_extracted", 0), ("exports_completed", 0),
            ("exports_failed", 0), ("duration_seconds", 0)]])) := by
  constructor
  · intro runner hr now ev w a s1 s2 e es msg invs hA hS hE hM hR1 hR2
    have hwf : executeWorkflow runner hr ev.jobId [s1, s2] (e :: es)
        w.db.mappings w.history w.eff =
        ([("sources_executed", 1), ("invoices_extracted", (invs.length : Int)),
          ("exports_completed", 0), ("exports_failed", 0), ("duration_seconds", 0)],
         w.history, w.eff) := by
      simp only [executeWorkflow, runSources, hR1, hR2, hM]
      simp [statsIncr, exportPhase_nil_mappings]
    refine ⟨?_, ?_, ?_, rfl⟩
    · simp only [workerHandleJobStarted, getAutomation_workerUpdateJobStatus,
        getActiveSources_workerUpdateJobStatus, getActiveExports_workerUpdateJobStatus,
        mappings_workerUpdateJobStatus, hA, hS, hE]
      simp only [List.isEmpty_cons, Bool.false_eq_true, if_false, hwf,
        workerCompleteJob, workerUpdateJobStatus]
      rw [updateJob_find, updateJob_find, Option.map_map]
      · cases w.db.jobs.find? (fun j => j.id == ev.jobId) with
        | none => rfl
        | some j => rfl
      · intro j; rfl
      · intro j; rfl
    · simp only [workerHandleJobStarted, getAutomation_workerUpdateJobStatus,
        getActiveSources_workerUpdateJobStatus, getActiveExports_workerUpdateJobStatus,
        mappings_workerUpdateJobStatus, hA, hS, hE]
      simp [List.isEmpty_cons, hwf, workerCompleteJob]
    · simp only [workerHandleJobStarted, getAutomation_workerUpdateJobStatus,
        getActiveSources_workerUpdateJobStatus, getActiveExports_workerUpdateJobStatus,
        mappings_workerUpdateJobStatus, hA, hS, hE]
      simp [List.isEmpty_cons, hwf, workerCompleteJob]
  · intro runner hr now ev w a s1 s2 e es m1 m2 hA hS hE hR1 hR2
    have hwf : executeWorkflow runner hr ev.jobId [s1, s2] (e :: es)
        w.db.mappings w.history w.eff =
        ([("sources_executed", 0), ("invoices_extracted", 0),
          ("exports_completed", 0), ("exports_failed", 0), ("duration_seconds", 0)],
         w.history, w.eff) := by
      simp [executeWorkflow, runSources, hR1, hR2]
    constructor
    · simp only [workerHandleJobStarted, getAutomation_workerUpdateJobStatus,
        getActiveSources_workerUpdateJobStatus, getActiveExports_workerUpdateJobStatus,
        mappings_workerUpdateJobStatus, hA, hS, hE]
      simp only [List.isEmpty_cons, Bool.false_eq_true, if_false, hwf,
        workerCompleteJob, workerUpdateJobStatus]
      rw [updateJob_find, updateJob_find, Option.map_map]
      · cases w.db.jobs.find? (fun j => j.id == ev.jobId) with
        | none => rfl
        | some j => rfl
      · intro j; rfl
      · intro j; rfl
    · simp only [workerHandleJobStarted, getAutomation_workerUpdateJobStatus,
        getActiveSources_workerUpdateJobStatus, getActiveExports_workerUpdateJobStatus,
        mappings_workerUpdateJobStatus, hA, hS, hE]
      simp [List.isEmpty_cons, hwf, workerCompleteJob]

/-- Witness for C5, at a concrete world with one failing and one
succeeding source. -/
theorem source_failures_swallowed_not_counted_witness :
    ((workerHandleJobStarted
        (fun s => if s.id == 10 then .error "boom" else .ok [c3Invoice])
        (stdHandlerRunner trivialSink trivialGdrive) 100 c5Event c5World).published =
      [] ++ [.jobCompleted 1 1 1
        [("sources_executed", 1), ("invoices_extracted", ((1 : Nat) : Int)),
         ("exports_completed", 0), ("exports_failed", 0), ("duration_seconds", 0)]]) := by
  have h := (source_failures_swallowed_not_counted.1
    (fun s => if s.id == 10 then .error "boom" else .ok [c3Invoice])
    (stdHandlerRunner trivialSink trivialGdrive) 100 c5Event c5World
    { id := 1, userId := 1 }
    { id := 10, automationId := 1, name := "A", ty := "Gmail", active := true }
    { id := 11, automationId := 1, name := "B", ty := "Gmail", active := true }
    { id := 20, automationId := 1, ty := "LocalStorage", configuration := [],
      active := true } [] "boom" [c3Invoice] rfl rfl rfl rfl rfl rfl)
  simpa using h.2.1

/-- Claim C4 counterexample: when the journal query fails (sink
unreachable) the Paheko handler does NOT return failed — `_check_duplicate`
swallows the exception and reports "no duplicate", so the handler
proceeds to create the transaction and returns success with one external
write performed. -/
theorem guard_failure_proceeds_to_write :
    pahekoExport c4Config c4InvoiceData c4Context c4Sink =
      ({ status := "success", external_reference := some "77" },
       [{ id_year := 1, label := "Facture INV-1", date := some "2025-03-15",
          transaction_type := "EXPENSE", amountCents := some 4200,
          debit := "601", credit := "512" }]) ∧
    (pahekoExport c4Config c4InvoiceData c4Context c4Sink).1.status ≠ "failed" :=
  ⟨rfl, by decide⟩

/-- Claim C4 amended: a journal entry matching the natural key
(date, rendered label) yields `duplicate_skipped` with a null external
reference and no external write; but a failed journal query is treated as
"not a duplicate" — the handler proceeds to create the transaction
(performing the external write) instead of returning failed. -/
theorem duplicate_guard_behavior :
    (∀ (cfg data ctx : Dict) (sink : PahekoSink) (lt label ds dstr : String)
        (idy : Int) (js : List JournalEntry) (e : JournalEntry),
      validateInvoiceData data = true →
      validateContext ctx = true →
      sink.hasClient = true →
      dictGet cfg "label_template" = some (.vs lt) →
      pyFormat lt ctx = .ok label →
      dictGet ctx "date" = some (.vs ds) →
      getAccountingYear sink (some ds) = some idy →
      dictGet cfg "debit" = some (.vs dstr) →
      strTrim ((strSplitOnChar dstr ',').headD "") ≠ "" →
      sink.journal idy (strTrim ((strSplitOnChar dstr ',').headD "")) = .ok js →
      e ∈ js → strTake e.date 10 = ds → e.label = label →
      pahekoExport cfg data ctx sink =
        ({ status := "duplicate_skipped", external_reference := none,
           error_message := some "Duplicate entry already exists" }, [])) ∧
    (∀ (cfg data ctx : Dict) (sink : PahekoSink) (lt label ds dstr cstr emsg : String)
        (idy : Int) (amc tid : Int),
      validateInvoiceData data = true →
      validateContext ctx = true →
      sink.hasClient = true →
      dictGet cfg "label_template" = some (.vs lt) →
      pyFormat lt ctx = .ok label →
      dictGet ctx "date" = some (.vs ds) →
      getAccountingYear sink (some ds) = some idy →
      dictGet cfg "debit" = some (.vs dstr) →
      dictGet cfg "credit" = some (.vs cstr) →
      strTrim ((strSplitOnChar dstr ',').headD "") ≠ "" →
      strTrim ((strSplitOnChar cstr ',').headD "") ≠ "" →
      sink.journal idy (strTrim ((strSplitOnChar dstr ',').headD "")) = .error emsg →
      dictGet cfg "paheko_type" = none →
      dictGet data "amount_eur" = some (.vnum amc) →
      sink.create { id_year := idy, label := label, date := some ds,
                    transaction_type := "EXPENSE", amountCents := some amc,
                    debit := strTrim ((strSplitOnChar dstr ',').headD ""),
                    credit := strTrim ((strSplitOnChar cstr ',').headD "") } = some tid →
      pahekoExport cfg data ctx sink =
        ({ status := "success", external_reference := some (toString tid) },
         [{ id_year := idy, label := label, date := some ds,
            transaction_type := "EXPENSE", amountCents := some amc,
            debit := strTrim ((strSplitOnChar dstr ',').headD ""),
            credit := strTrim ((strSplitOnChar cstr ',').headD "") }])) := by
  constructor
  · intro cfg data ctx sink lt label ds dstr idy js e hVD hVC hCl hLt hFmt hDate hYear
      hDebit hAcct hJournal hMem hEDate hELabel
    have hdup : checkDuplicate cfg sink idy label (some ds) = true := by
      simp only [checkDuplicate, hDebit]
      rw [if_neg hAcct]
      rw [hJournal]
      have hne : js.isEmpty = false := by
        cases js with
        | nil => cases hMem
        | cons x xs => rfl
      simp only [hne, Bool.false_eq_true, if_false]
      refine List.any_eq_true.mpr ⟨e, hMem, ?_⟩
      simp [hEDate, hELabel]
    simp [pahekoExport, hVD, hVC, hCl, hLt, hFmt, hDate, hYear, hdup]
  · intro cfg data ctx sink lt label ds dstr cstr emsg idy amc tid hVD hVC hCl hLt hFmt
      hDate hYear hDebit hCredit hAcct hCred hJournal hTT hAmt hCreate
    have hdup : checkDuplicate cfg sink idy label (some ds) = false := by
      simp only [checkDuplicate, hDebit]
      rw [if_neg hAcct]
      rw [hJournal]
    have hct : createTransaction cfg sink idy label (some ds) (some amc) =
        (some tid,
         [{ id_year := idy, label := label, date := some ds,
            transaction_type := "EXPENSE", amountCents := some amc,
            debit := strTrim ((strSplitOnChar dstr ',').headD ""),
            credit := strTrim ((strSplitOnChar cstr ',').headD "") }]) := by
      simp only [createTransaction, hDebit, hCredit, hTT]
      rw [if_neg (by
        simp only [Bool.or_eq_true, decide_eq_true_eq, not_or]
        exact ⟨by simpa [List.headD_eq_head?_getD] using hAcct,
               by simpa [List.headD_eq_head?_getD] using hCred⟩)]
      rw [hCreate]
    simp [pahekoExport, hVD, hVC, hCl, hLt, hFmt, hDate, hYear, hdup, hAmt, hct]

/-- Witness for C4: both amended behaviors at concrete sinks. -/
theorem duplicate_guard_behavior_witness :
    pahekoExport c4Config c4InvoiceData c4Context c4DupSink =
      ({ status := "duplicate_skipped", external_reference := none,
         error_message := some "Duplicate entry already exists" }, []) ∧
    pahekoExport c4Config c4InvoiceData c4Context c4Sink =
      ({ status := "success", external_reference := some (toString (77 : Int)) },
       [{ id_year := 1, label := "Facture INV-1", date := some "2025-03-15",
          transaction_type := "EXPENSE", amountCents := some 4200,
          debit := strTrim ((strSplitOnChar "601" ',').headD ""),
          credit := strTrim ((strSplitOnChar "512" ',').headD "") }]) :=
  ⟨duplicate_guard_behavior.1 c4Config c4InvoiceData c4Context c4DupSink
      "Facture {invoice_id}" "Facture INV-1" "2025-03-15" "601" 1
      [{ date := "2025-03-15", label := "Facture INV-1" }]
      { date := "2025-03-15", label := "Facture INV-1" }
      rfl rfl rfl rfl rfl rfl rfl rfl (by decide) rfl (by decide) (by decide) rfl,
   duplicate_guard_behavior.2 c4Config c4InvoiceData c4Context c4Sink
      "Facture {invoice_id}" "Facture INV-1" "2025-03-15" "601" "512"
      "Connection refused" 1 4200 77
      rfl rfl rfl rfl rfl rfl rfl rfl rfl (by decide) (by decide) rfl rfl rfl rfl⟩

/-- Membership and the Bool-valued `contains` used by the validator
agree. -/
theorem contains_or_iff (v : String) :
    (TEMPLATE_VARIABLES.contains v || EXTRA_VALID_VARS.contains v) = true ↔
      (v ∈ TEMPLATE_VARIABLES ∨ v ∈ EXTRA_VALID_VARS) := by
  simp [List.contains, List.elem_iff]

/-- Claim C8 counterexample: the template validator accepts a template
whose placeholder `amount_eur` lies outside the claimed closed set (it is
in the validator's extra allow-list); and a template whose placeholders
all lie in the claimed set (vacuously — it has none) is rejected, so the
claimed "iff" fails in both directions. -/
theorem template_validator_accepts_amount_eur :
    validate_path_template "{amount_eur}/f.pdf" = (true, "") ∧
    "amount_eur" ∉ c8ClaimedVars ∧
    validate_path_template "static.pdf" =
      (false, "Template must contain at least one variable") :=
  ⟨rfl, by decide, rfl⟩

/-- Claim C8 amended: a template is accepted iff it is nonempty, has at
least one placeholder, and every placeholder lies in
TEMPLATE_VARIABLES ∪ \x7bdate, amount_eur, source, filename\x7d (a ten-name
set including `amount_eur`); and whenever validation rejects the
configured template, the filesystem handler returns failed with the
validator's message and the filesystem untouched (no directory created,
no file copied). -/
theorem template_validation_characterization :
    (∀ t : String, (validate_path_template t).1 = true ↔
      (t ≠ "" ∧ extractVars t ≠ [] ∧
       ∀ v ∈ extractVars t, v ∈ TEMPLATE_VARIABLES ∨ v ∈ EXTRA_VALID_VARS)) ∧
    (∀ (cfg data ctx : Dict) (fs : FS) (tpl msg : String),
      dictGet cfg "path_template" = some (.vs tpl) →
      validateInvoiceData data = true →
      validateContext ctx = true →
      validate_path_template tpl = (false, msg) →
      localStorageExport cfg data ctx fs =
        ({ status := "failed", error_message := some msg }, fs)) := by
  constructor
  · intro t
    simp only [validate_path_template]
    by_cases ht : t = ""
    · simp [ht]
    · rw [if_neg ht]
      cases hf : (extractVars t).find? (fun v =>
          !(TEMPLATE_VARIABLES.contains v || EXTRA_VALID_VARS.contains v)) with
      | some v =>
          simp only [hf]
          constructor
          · intro h; exact absurd h (by simp)
          · rintro ⟨-, -, hall⟩
            have hv := List.find?_some hf
            have hmem := List.mem_of_find?_eq_some hf
            rw [Bool.not_eq_eq_eq_not, Bool.not_true, Bool.or_eq_false_iff] at hv
            have hacc := (contains_or_iff v).mpr (hall v hmem)
            rw [Bool.or_eq_true] at hacc
            rcases hacc with h1 | h1
            · rw [hv.1] at h1; cases h1
            · rw [hv.2] at h1; cases h1
      | none =>
          simp only [hf]
          by_cases hv : extractVars t = []
          · simp [hv]
          · simp only [hv, if_false]
            constructor
            · intro _
              refine ⟨ht, hv, fun v hmem => ?_⟩
              have := List.find?_eq_none.mp hf v hmem
              rw [Bool.not_eq_true, Bool.not_eq_eq_eq_not, Bool.not_false] at this
              exact (contains_or_iff v).mp this
            · intro _; trivial
  · intro cfg data ctx fs tpl msg hPT hVD hVC hVal
    simp [localStorageExport, dictGetStrD, hPT, hVD, hVC, hVal]

/-- Witness for C8: a rejected template makes the handler fail with the
filesystem unchanged, and an accepted template satisfies the
characterization. -/
theorem template_validation_characterization_witness :
    localStorageExport [("path_template", .vs "{bad_var}/f.pdf")]
        [("file_path", .vs "/tmp/a.pdf"), ("invoice_id", .vs "I"), ("date", .vs "D"),
         ("amount_eur", .vnull)]
        [("invoice_id", .vs "I"), ("date", .vs "D"), ("amount_eur", .vnull)]
        { cwd := "", dirs := [], files := [] } =
      ({ status := "failed", error_message := some "Unknown variable: bad_var" },
       { cwd := "", dirs := [], files := [] }) ∧
    (validate_path_template "{year}/{filename}").1 = true :=
  ⟨template_validation_characterization.2 _ _ _ _ "{bad_var}/f.pdf"
      "Unknown variable: bad_var" rfl rfl rfl rfl,
   (template_validation_characterization.1 "{year}/{filename}").mpr (by decide)⟩

theorem hasRun4_cons (c : Char) (l : List Char) :
    hasRun4 (c :: l) = (win4 (c :: l) || hasRun4 l) := by
  simp [hasRun4, List.tails_cons]

theorem hasRun4_cons_of {c : Char} {l : List Char} (h : hasRun4 l = true) :
    hasRun4 (c :: l) = true := by
  rw [hasRun4_cons, h, Bool.or_true]

theorem hasRun4_of_win4 {l : List Char} (h : win4 l = true) : hasRun4 l = true := by
  cases l with
  | nil => cases h
  | cons c rest => rw [hasRun4_cons, h, Bool.true_or]

theorem matchYMDAt_win4 {l : List Char} {r : Nat × Nat × Nat}
    (h : matchYMDAt l = some r) : win4 l = true := by
  unfold matchYMDAt at h
  split at h
  · split at h
    · rename_i hcond
      simp only [List.all_cons, List.all_nil, Bool.and_true, Bool.and_eq_true] at hcond
      simp only [win4, Bool.and_eq_true]
      tauto
    · cases h
  · cases h

theorem matchYMAt_win4 {l : List Char} {r : Nat × Nat}
    (h : matchYMAt l = some r) : win4 l = true := by
  unfold matchYMAt at h
  split at h
  · split at h
    · rename_i hcond
      simp only [List.all_cons, List.all_nil, Bool.and_true, Bool.and_eq_true] at hcond
      simp only [win4, Bool.and_eq_true]
      tauto
    · cases h
  · cases h

theorem match4At_win4 {l : List Char} {r : Nat}
    (h : match4At l = some r) : win4 l = true := by
  unfold match4At at h
  split at h
  · split at h
    · rename_i hcond
      simp only [List.all_cons, List.all_nil, Bool.and_true, Bool.and_eq_true] at hcond
      simp only [win4, Bool.and_eq_true]
      tauto
    · cases h
  · cases h

theorem matchMYAt_hasRun4 {l : List Char} {r : Nat × Nat}
    (h : matchMYAt l = some r) : hasRun4 l = true := by
  unfold matchMYAt at h
  split at h
  · split at h
    · rename_i hcond
      simp only [List.all_cons, List.all_nil, Bool.and_true, Bool.and_eq_true] at hcond
      apply hasRun4_cons_of; apply hasRun4_cons_of; apply hasRun4_cons_of
      refine hasRun4_of_win4 ?_
      simp only [win4, Bool.and_eq_true]
      tauto
    · cases h
  · cases h

theorem searchYMD_hasRun4 : ∀ {l : List Char} {r : Nat × Nat × Nat},
    searchYMD l = some r → hasRun4 l = true := by
  intro l
  induction l with
  | nil => intro r h; cases h
  | cons c rest ih =>
      intro r h
      unfold searchYMD at h
      cases hm : matchYMDAt (c :: rest) with
      | some x => exact hasRun4_of_win4 (matchYMDAt_win4 hm)
      | none => rw [hm] at h; exact hasRun4_cons_of (ih h)

theorem searchYM_hasRun4 : ∀ {l : List Char} {r : Nat × Nat},
    searchYM l = some r → hasRun4 l = true := by
  intro l
  induction l with
  | nil => intro r h; cases h
  | cons c rest ih =>
      intro r h
      unfold searchYM at h
      cases hm : matchYMAt (c :: rest) with
      | some x => exact hasRun4_of_win4 (matchYMAt_win4 hm)
      | none => rw [hm] at h; exact hasRun4_cons_of (ih h)

theorem searchMY_hasRun4 : ∀ {l : List Char} {r : Nat × Nat},
    searchMY l = some r → hasRun4 l = true := by
  intro l
  induction l with
  | nil => intro r h; cases h
  | cons c rest ih =>
      intro r h
      unfold searchMY at h
      cases hm : matchMYAt (c :: rest) with
      | some x => exact matchMYAt_hasRun4 hm
      | none => rw [hm] at h; exact hasRun4_cons_of (ih h)

theorem search4_hasRun4 : ∀ {l : List Char} {r : Nat},
    search4 l = some r → hasRun4 l = true := by
  intro l
  induction l with
  | nil => intro r h; cases h
  | cons c rest ih =>
      intro r h
      unfold search4 at h
      cases hm : match4At (c :: rest) with
      | some x => exact hasRun4_of_win4 (match4At_win4 hm)
      | none => rw [hm] at h; exact hasRun4_cons_of (ih h)

/-- Claim C9 counterexample: a string that is none of the six accepted
forms still parses — the regexes are applied with substring search, so
"around 2024 maybe" yields 2024-01-01 instead of no date. -/
theorem date_parser_accepts_non_exact_forms :
    parse_date_label_to_date "around 2024 maybe" = some ⟨2024, 1, 1⟩ ∧
    isSpecDateForm "around 2024 maybe" = false :=
  ⟨rfl, rfl⟩

/-- Claim C9 amended: the parser searches for the date patterns as
substrings of the stripped label rather than matching the whole string:
each of the six spec forms parses to its stated normalization (exact
date; first day of the month; January 1st for a bare year), a label
merely containing such a pattern parses the same way, an invalid
month makes the parse yield none, and a label with no four-consecutive-
digit run anywhere yields none. -/
theorem date_label_parsing_substring_semantics :
    (∀ s : String, hasRun4 (strTrim s).toList = false →
      parse_date_label_to_date s = none) ∧
    parse_date_label_to_date "2025-03-15" = some ⟨2025, 3, 15⟩ ∧
    parse_date_label_to_date "2025-03" = some ⟨2025, 3, 1⟩ ∧
    parse_date_label_to_date "2025/03" = some ⟨2025, 3, 1⟩ ∧
    parse_date_label_to_date "03/2025" = some ⟨2025, 3, 1⟩ ∧
    parse_date_label_to_date "Janvier 2025" = some ⟨2025, 1, 1⟩ ∧
    parse_date_label_to_date "2025" = some ⟨2025, 1, 1⟩ ∧
    parse_date_label_to_date "facture du 2026/07 merci" = some ⟨2026, 7, 1⟩ ∧
    parse_date_label_to_date "2025-13" = none := by
  refine ⟨?_, rfl, rfl, rfl, rfl, rfl, rfl, rfl, rfl⟩
  intro s h
  by_cases hs : s = ""
  · simp [parse_date_label_to_date, hs]
  · have h1 : searchYMD (strTrim s).toList = none := by
      cases hy : searchYMD (strTrim s).toList with
      | none => rfl
      | some r => rw [searchYMD_hasRun4 hy] at h; cases h
    have h2 : searchYM (strTrim s).toList = none := by
      cases hy : searchYM (strTrim s).toList with
      | none => rfl
      | some r => rw [searchYM_hasRun4 hy] at h; cases h
    have h3 : searchMY (strTrim s).toList = none := by
      cases hy : searchMY (strTrim s).toList with
      | none => rfl
      | some r => rw [searchMY_hasRun4 hy] at h; cases h
    have h4 : search4 (strTrim s).toList = none := by
      cases hy : search4 (strTrim s).toList with
      | none => rfl
      | some r => rw [search4_hasRun4 hy] at h; cases h
    simp only [String.toList] at h1 h2 h3 h4
    simp [parse_date_label_to_date, hs, parseYMStep, h1, h2, h3, h4]

/-- Witness for C9: the no-digit-run case at a concrete label. -/
theorem date_label_parsing_substring_semantics_witness :
    parse_date_label_to_date "hello world" = none :=
  date_label_parsing_substring_semantics.1 "hello world" (by decide)

/-- Claim C10 (confirmed): `get_export_handler` maps exactly the three
type strings Paheko / LocalStorage / GoogleDrive to their handlers,
raises `ValueError("Unknown export type: ...")` for every other string,
and the worker's `_execute_export` catches that raise and returns a
failed result instead of propagating it. -/
theorem export_factory_total_over_three_types :
    get_export_handler "Paheko" = .ok .paheko ∧
    get_export_handler "LocalStorage" = .ok .localStorage ∧
    get_export_handler "GoogleDrive" = .ok .googleDrive ∧
    (∀ t : String, t ∉ (["Paheko", "LocalStorage", "GoogleDrive"] : List String) →
      get_export_handler t = .error ("Unknown export type: " ++ t)) ∧
    (∀ (hr : HandlerRunner) (ty : String) (cfg data ctx : Dict) (eff : Eff) (msg : String),
      get_export_handler ty = .error msg →
      executeExport hr ty cfg data ctx eff =
        ({ status := "failed", error_message := some msg }, eff)) := by
  refine ⟨rfl, rfl, rfl, ?_, ?_⟩
  · intro t ht
    simp only [List.mem_cons, List.not_mem_nil, or_false, not_or] at ht
    obtain ⟨h1, h2, h3⟩ := ht
    simp [get_export_handler, h1, h2, h3]
  · intro hr ty cfg data ctx eff msg h
    simp [executeExport, h]

/-- Witness for C10, at the concrete unknown type "Dropbox". -/
theorem export_factory_total_over_three_types_witness :
    get_export_handler "Dropbox" = .error ("Unknown export type: " ++ "Dropbox") ∧
    executeExport (fun _ _ _ _ e => ({ status := "failed" }, e)) "Dropbox" [] [] []
        { fs := { cwd := "", dirs := [], files := [] }, sinkCalls := [] } =
      ({ status := "failed", error_message := some ("Unknown export type: " ++ "Dropbox") },
       { fs := { cwd := "", dirs := [], files := [] }, sinkCalls := [] }) :=
  ⟨export_factory_total_over_three_types.2.2.2.1 "Dropbox" (by decide),
   export_factory_total_over_three_types.2.2.2.2 _ "Dropbox" [] [] [] _ _
     (export_factory_total_over_three_types.2.2.2.1 "Dropbox" (by decide))⟩

/-- Claim C1 (code bug): the spec requires a redelivered `job.started`
for a non-pending job to be acked as a no-op, but neither worker ever
reads `Job.status`.  Here a job that already terminated as `failed` is
re-run on redelivery: the worker rewrites the row to `completed` with
fresh timestamps and stats and publishes a new terminal event. -/
theorem redelivery_after_terminal_state_reexecutes :
    c1DB.jobs.map (fun j => j.status) = ["failed"] ∧
    (workerHandleJobStarted c1Runner (stdHandlerRunner trivialSink trivialGdrive)
        100 c1Event c1World).db.jobs =
      [{ id := 1, automationId := 1, status := "completed",
         errorMessage := some "old failure",
         stats := some [("sources_executed", 1), ("invoices_extracted", 0),
                        ("exports_completed", 0), ("exports_failed", 0),
                        ("duration_seconds", 0)],
         startedAt := some 100, completedAt := some 100 }] ∧
    (workerHandleJobStarted c1Runner (stdHandlerRunner trivialSink trivialGdrive)
        100 c1Event c1World).published =
      [.jobCompleted 1 1 1 [("sources_executed", 1), ("invoices_extracted", 0),
                            ("exports_completed", 0), ("exports_failed", 0),
                            ("duration_seconds", 0)]] :=
  ⟨rfl, rfl, rfl⟩

/-- Claim C3 (code bug): on the §8 happy-path scenario the worker should
produce a success ExportHistory row and the file at /out/2025/03/INV-1.pdf,
and the LocalStorage handler indeed does so when handed the §6.4-shaped
invoice_data (last conjunct); but `_execute_workflow` builds invoice_data
from `invoice.amount` and `invoice.file_path`, attributes the Invoice
dataclass does not have, so the only history row is `failed`, no file is
written, and stats count the export as failed — while the job still ends
`completed`. -/
theorem happy_path_records_failed_export_row :
    (workerHandleJobStarted c3Runner (stdHandlerRunner trivialSink trivialGdrive)
        100 c3Event c3World).history =
      [{ jobId := 1, exportId := 20, exportType := "LocalStorage", status := "failed",
         context := [], externalReference := none,
         errorMessage := some "AttributeError: Invoice object has no attribute amount" }] ∧
    (workerHandleJobStarted c3Runner (stdHandlerRunner trivialSink trivialGdrive)
        100 c3Event c3World).eff.fs = c3FS ∧
    ((workerHandleJobStarted c3Runner (stdHandlerRunner trivialSink trivialGdrive)
        100 c3Event c3World).db.jobs.map (fun j => (j.status, j.stats))) =
      [("completed", some [("sources_executed", 1), ("invoices_extracted", 1),
                           ("exports_completed", 0), ("exports_failed", 1),
                           ("duration_seconds", 0)])] ∧
    localStorageExport [("path_template", .vs "{year}/{month}/{invoice_id}.pdf"),
        ("base_path", .vs "/out")] c3FullInvoiceData c3Context c3FS =
      ({ status := "success", external_reference := some "/out/2025/03/INV-1.pdf" },
       { cwd := "/cwd", dirs := ["/out/2025/03"],
         files := [("/out/2025/03/INV-1.pdf", "pdfbytes"), ("/tmp/src.pdf", "pdfbytes")] }) :=
  ⟨rfl, rfl, rfl, by decide⟩

end Fakturenn
